import Mathlib

/-!
Shallow embedding of the atlassian/ctrl controller runtime: the three event
handlers (GenericHandler, LookupHandler, ControlledResourceHandler), the
construction phase (NewGeneric, Context.RegisterInformer) and the staged run
phase (Generic.Run), together with proofs of the behavioural properties the
specification states about them.

Handlers are embedded as pure functions from the event payload to the trace
of side effects they perform: the log entries emitted and the sequence of
QueueKey values passed to WorkQueue.Add, in order.
-/

namespace Ctrl

/-- schema.GroupKind. -/
structure GroupKind where
  group : String
  kind : String
deriving DecidableEq, Repr

/-- schema.GroupVersionKind. -/
structure GroupVersionKind where
  group : String
  version : String
  kind : String
deriving DecidableEq, Repr

/-- GroupVersionKind.GroupKind(). -/
def GroupVersionKind.groupKind (g : GroupVersionKind) : GroupKind :=
  ⟨g.group, g.kind⟩

/-- schema.GroupVersion.String(): "group/version", or just "version" when the
group is empty. -/
def GroupVersionKind.groupVersionString (g : GroupVersionKind) : String :=
  if g.group = "" then g.version else g.group ++ "/" ++ g.version

/-- meta_v1.OwnerReference, restricted to the fields the handlers read.
`controller` stands for `ref.Controller != nil && *ref.Controller`. -/
structure OwnerReference where
  apiVersion : String
  kind : String
  name : String
  controller : Bool
deriving DecidableEq, Repr

/-- The view of a Kubernetes object the handlers use: meta_v1.Object
(GetNamespace, GetName, GetOwnerReferences) plus
GetObjectKind().GroupVersionKind(). -/
structure K8sObject where
  Namespace : String
  Name : String
  gvk : GroupVersionKind
  ownerReferences : List OwnerReference
deriving DecidableEq, Repr

/-- meta_v1.GetControllerOf: the first owner reference flagged as controller. -/
def GetControllerOf (obj : K8sObject) : Option OwnerReference :=
  obj.ownerReferences.find? (fun r => r.controller)

/-- QueueKey from interfaces.go: the payload of WorkQueueProducer.Add. -/
structure QueueKey where
  Namespace : String
  Name : String
deriving DecidableEq, Repr

inductive LogLevel
  | info
  | error
deriving DecidableEq, Repr

structure LogEntry where
  level : LogLevel
  msg : String
deriving DecidableEq, Repr

/-- The observable effects of one handler invocation: the log entries written
and the keys passed to WorkQueue.Add, each in program order. -/
structure HandlerOutput where
  logs : List LogEntry
  adds : List QueueKey
deriving DecidableEq, Repr

def HandlerOutput.empty : HandlerOutput := ⟨[], []⟩

def HandlerOutput.append (a b : HandlerOutput) : HandlerOutput :=
  ⟨a.logs ++ b.logs, a.adds ++ b.adds⟩

def HandlerOutput.concat (xs : List HandlerOutput) : HandlerOutput :=
  xs.foldl HandlerOutput.append HandlerOutput.empty

/-- The payload of an informer delete notification: a live object, a
cache.DeletedFinalStateUnknown tombstone (whose Obj may itself fail the
meta_v1.Object assertion), or something else entirely.  `unrecognized`
carries the %T type name used in the error log. -/
inductive TombstoneContent
  | live (o : K8sObject)
  | unrecognized (typeName : String)
deriving DecidableEq, Repr

inductive DeleteEvent
  | live (o : K8sObject)
  | tombstone (content : TombstoneContent)
  | unrecognized (typeName : String)
deriving DecidableEq, Repr

/-- A delete payload that is neither a live object nor a tombstone wrapping a
live object. -/
def DeleteEvent.isBad : DeleteEvent → Bool
  | .tombstone (.unrecognized _) => true
  | .unrecognized _ => true
  | _ => false

/-! ## GenericHandler (generic_handler.go) -/

/-- GenericHandler.add: logs and enqueues the object's own namespace/name. -/
def GenericHandler.add (obj : K8sObject) (addUpdateDelete : String) : HandlerOutput :=
  ⟨[⟨.info, "Enqueuing object because it was " ++ addUpdateDelete⟩],
   [⟨obj.Namespace, obj.Name⟩]⟩

def GenericHandler.OnAdd (obj : K8sObject) : HandlerOutput :=
  GenericHandler.add obj "added"

def GenericHandler.OnUpdate (_oldObj newObj : K8sObject) : HandlerOutput :=
  GenericHandler.add newObj "updated"

def GenericHandler.OnDelete (obj : DeleteEvent) : HandlerOutput :=
  match obj with
  | .live o => GenericHandler.add o "deleted"
  | .tombstone (.live o) => GenericHandler.add o "deleted"
  | .tombstone (.unrecognized t) =>
      ⟨[⟨.error, "Delete tombstone with unrecognized object type: " ++ t⟩], []⟩
  | .unrecognized t =>
      ⟨[⟨.error, "Delete event with unrecognized object type: " ++ t⟩], []⟩

/-! ## LookupHandler (lookup_handler.go) -/

/-- LookupHandler: Logger/WorkQueue are modelled by the output trace; the Gvk
field only feeds the logger. The Lookup function is injected. -/
structure LookupHandler where
  Gvk : GroupVersionKind
  Lookup : K8sObject → Except String (List K8sObject)

def LookupHandler.enqueueMapped (e : LookupHandler) (obj : K8sObject)
    (addUpdateDelete : String) : HandlerOutput :=
  match e.Lookup obj with
  | .error err => ⟨[⟨.error, "Failed to lookup objects: " ++ err⟩], []⟩
  | .ok objs =>
      HandlerOutput.concat <| objs.map fun o =>
        ⟨[⟨.info, "Enqueuing looked up object because parent object was " ++
            addUpdateDelete⟩],
         [⟨o.Namespace, o.Name⟩]⟩

def LookupHandler.OnAdd (e : LookupHandler) (obj : K8sObject) : HandlerOutput :=
  e.enqueueMapped obj "added"

def LookupHandler.OnUpdate (e : LookupHandler) (_oldObj newObj : K8sObject) :
    HandlerOutput :=
  e.enqueueMapped newObj "updated"

def LookupHandler.OnDelete (e : LookupHandler) (obj : DeleteEvent) : HandlerOutput :=
  match obj with
  | .live o => e.enqueueMapped o "deleted"
  | .tombstone (.live o) => e.enqueueMapped o "deleted"
  | .tombstone (.unrecognized t) =>
      ⟨[⟨.error, "Delete tombstone with unrecognized object type: " ++ t⟩], []⟩
  | .unrecognized t =>
      ⟨[⟨.error, "Delete event with unrecognized object type: " ++ t⟩], []⟩

/-! ## ControlledResourceHandler (controlled_resource_handler.go) -/

/-- ControllerIndex.ControllerByObject as a function value; `none` models a
nil ControllerIndex field. -/
def ControllerIndexFn : Type :=
  GroupKind → String → String → Except String (List K8sObject)

structure ControlledResourceHandler where
  ControllerIndex : Option ControllerIndexFn
  ControllerGvk : GroupVersionKind

/-- getControllerNameAndNamespace: the controller owner reference's name when
its APIVersion and Kind match ControllerGvk, otherwise empty; the namespace is
always the object's own. -/
def ControlledResourceHandler.getControllerNameAndNamespace
    (g : ControlledResourceHandler) (obj : K8sObject) : String × String :=
  let name :=
    match GetControllerOf obj with
    | some ref =>
        if ref.apiVersion = g.ControllerGvk.groupVersionString ∧
            ref.kind = g.ControllerGvk.kind then
          ref.name
        else ""
    | none => ""
  (name, obj.Namespace)

/-- rebuildControllerByName: no-op on an empty controller name, otherwise one
info log and one Add. -/
def ControlledResourceHandler.rebuildControllerByName
    (namespaceArg controllerName addUpdateDelete : String) : HandlerOutput :=
  if controllerName = "" then HandlerOutput.empty
  else
    ⟨[⟨.info, "Enqueuing controller object because controlled object was " ++
        addUpdateDelete⟩],
     [⟨namespaceArg, controllerName⟩]⟩

def ControlledResourceHandler.enqueueMapped (g : ControlledResourceHandler)
    (metaObj : K8sObject) (action : String) : HandlerOutput :=
  if (g.getControllerNameAndNamespace metaObj).1 = "" then
    match g.ControllerIndex with
    | none => HandlerOutput.empty
    | some idx =>
        match idx metaObj.gvk.groupKind
            (g.getControllerNameAndNamespace metaObj).2 metaObj.Name with
        | .error err =>
            ⟨[⟨.error, "Failed to get controllers for object: " ++ err⟩], []⟩
        | .ok controllers =>
            HandlerOutput.concat <| controllers.map fun c =>
              ControlledResourceHandler.rebuildControllerByName
                c.Namespace c.Name action
  else
    ControlledResourceHandler.rebuildControllerByName
      (g.getControllerNameAndNamespace metaObj).2
      (g.getControllerNameAndNamespace metaObj).1 action

def ControlledResourceHandler.OnAdd (g : ControlledResourceHandler)
    (obj : K8sObject) : HandlerOutput :=
  g.enqueueMapped obj "added"

def ControlledResourceHandler.OnUpdate (g : ControlledResourceHandler)
    (oldObj newObj : K8sObject) : HandlerOutput :=
  HandlerOutput.append
    (if (g.getControllerNameAndNamespace oldObj).1 ≠
        (g.getControllerNameAndNamespace newObj).1 then
      g.enqueueMapped oldObj "updated"
     else HandlerOutput.empty)
    (g.enqueueMapped newObj "updated")

def ControlledResourceHandler.OnDelete (g : ControlledResourceHandler)
    (obj : DeleteEvent) : HandlerOutput :=
  match obj with
  | .live o => g.enqueueMapped o "deleted"
  | .tombstone (.live o) => g.enqueueMapped o "deleted"
  | .tombstone (.unrecognized t) =>
      ⟨[⟨.error, "Delete tombstone with unrecognized object type: " ++ t⟩], []⟩
  | .unrecognized t =>
      ⟨[⟨.error, "Delete event with unrecognized object type: " ++ t⟩], []⟩

/-! ## Context.RegisterInformer (context.go) -/

/-- The Context.Informers map, as an association list keyed by GVK; the value
is an opaque informer identity. Go's nil map and empty map both read as "no
entries", so both are the empty list here. -/
abbrev InformerMap : Type := List (GroupVersionKind × Nat)

def InformerMap.containsGvk (m : InformerMap) (gvk : GroupVersionKind) : Bool :=
  m.any fun p => p.1 = gvk

/-- Context.RegisterInformer: errors when an informer for the GVK is already
present (leaving the map as it was), otherwise stores the informer under the
GVK. Returns the error (none = nil) and the resulting Informers map. -/
def RegisterInformer (m : InformerMap) (gvk : GroupVersionKind) (inf : Nat) :
    Option String × InformerMap :=
  if m.containsGvk gvk then
    (some "informer with this GVK has been registered already", m)
  else (none, m ++ [(gvk, inf)])

/-! ## NewGeneric construction loop (generic.go, src/unnamed/part_005 first
revision) -/

/-- A controller constructor, abstracted to what NewGeneric observes of it:
the GVK it declares via Describe(), the set of informer GVKs its New registers
through Context.RegisterInformer (registering an already-present GVK leaves
the shared map unchanged), and whether New returns an error. -/
structure Constructor where
  Gvk : GroupVersionKind
  registers : List GroupVersionKind
  newErr : Option String
deriving Repr

/-- Effect of a constructor's registrations on the shared informer map:
RegisterInformer adds each GVK not already present. Only the key set matters
to NewGeneric, so the map is the list of registered GVKs. -/
def registerAll (infs : List GroupVersionKind) (gs : List GroupVersionKind) :
    List GroupVersionKind :=
  gs.foldl (fun m g => if g ∈ m then m else m ++ [g]) infs

/-- The body of NewGeneric's loop over constructors. State: the GVKs present
in the controllers map and in the shared informers map. For each constructor,
in source order: duplicate-GVK check against controllers, the New call (which
may error and which performs the registrations), then the check that an
informer for the declared GVK is present in the shared map. -/
def newGenericLoop :
    List Constructor → List GroupVersionKind → List GroupVersionKind →
    Except String (List GroupVersionKind × List GroupVersionKind)
  | [], ctrls, infs => .ok (ctrls, infs)
  | c :: rest, ctrls, infs =>
    if c.Gvk ∈ ctrls then .error "duplicate controller for GVK"
    else
      match c.newErr with
      | some e => .error ("failed to construct controller for GVK: " ++ e)
      | none =>
          let infs2 := registerAll infs c.registers
          if c.Gvk ∈ infs2 then newGenericLoop rest (ctrls ++ [c.Gvk]) infs2
          else .error "controller for GVK should have registered an informer for that GVK"

/-- NewGeneric: runs the construction loop from empty maps; on success the
result carries the controller GVKs and informer GVKs of the built Generic. -/
def NewGeneric (constructors : List Constructor) :
    Except String (List GroupVersionKind × List GroupVersionKind) :=
  newGenericLoop constructors [] []

/-! ## Generic.Run staged startup (generic.go) -/

/-- The actions Generic.Run performs, in program order: starting an informer,
a cache-sync wait completing for an informer, starting a controller run loop,
a readiness gate closing for a controller, starting a worker. -/
inductive RunEvent
  | infStart (g : GroupVersionKind)
  | syncOk (g : GroupVersionKind)
  | ctrlStart (g : GroupVersionKind)
  | readyOk (g : GroupVersionKind)
  | workerStart (i : Nat)
deriving DecidableEq, Repr

/-- The cache-sync wait loop: informers paired with whether their cache syncs
before the context is cancelled (cache.WaitForCacheSync's result). The loop
stops at the first informer whose wait is cancelled. Returns the emitted
events and whether every wait succeeded. -/
def cacheSyncLoop : List (GroupVersionKind × Bool) → List RunEvent × Bool
  | [] => ([], true)
  | (g, synced) :: rest =>
    if synced then
      let r := cacheSyncLoop rest
      (RunEvent.syncOk g :: r.1, r.2)
    else ([], false)

/-- The readiness wait loop: controllers paired with whether their
ReadyForWork gate closes before the context is cancelled. -/
def readyLoop : List (GroupVersionKind × Bool) → List RunEvent × Bool
  | [] => ([], true)
  | (g, ready) :: rest =>
    if ready then
      let r := readyLoop rest
      (RunEvent.readyOk g :: r.1, r.2)
    else ([], false)

/-- Generic.Run, revision src/unnamed/part_004, in the len(Servers) == 0
configuration. Inputs: the informers with their sync outcomes, the
controllers with their readiness outcomes, the worker count, and the string
ctx.Err() yields once the context is done. Output: the event trace and the
returned error (none = nil). Stage 1 starts every informer, then waits on
each; a cancelled wait returns ctx.Err(). Stage 2 starts every controller
run loop, then waits on each gate; cancellation returns ctx.Err(). Stage 3
starts the workers, then Run blocks until cancellation and returns ctx.Err(). -/
def GenericRun (informers : List (GroupVersionKind × Bool))
    (controllers : List (GroupVersionKind × Bool)) (workers : Nat)
    (ctxErr : String) : List RunEvent × Option String :=
  let stage1 := informers.map fun p => RunEvent.infStart p.1
  let sync := cacheSyncLoop informers
  if sync.2 then
    let stage2 := controllers.map fun p => RunEvent.ctrlStart p.1
    let ready := readyLoop controllers
    if ready.2 then
      (stage1 ++ sync.1 ++ stage2 ++ ready.1 ++
        (List.range workers).map RunEvent.workerStart, some ctxErr)
    else (stage1 ++ sync.1 ++ stage2 ++ ready.1, some ctxErr)
  else (stage1 ++ sync.1, some ctxErr)

/-- Generic.Run, revision src/unnamed/part_005 (third section, the
error-returning variant with the servers stage): identical staging, but a
cancelled cache-sync or readiness wait returns nil, and with no servers
registered the final return value srvErr is also nil. -/
def GenericRunPart005 (informers : List (GroupVersionKind × Bool))
    (controllers : List (GroupVersionKind × Bool)) (workers : Nat)
    (_ctxErr : String) : List RunEvent × Option String :=
  let stage1 := informers.map fun p => RunEvent.infStart p.1
  let sync := cacheSyncLoop informers
  if sync.2 then
    let stage2 := controllers.map fun p => RunEvent.ctrlStart p.1
    let ready := readyLoop controllers
    if ready.2 then
      (stage1 ++ sync.1 ++ stage2 ++ ready.1 ++
        (List.range workers).map RunEvent.workerStart, none)
    else (stage1 ++ sync.1 ++ stage2 ++ ready.1, none)
  else (stage1 ++ sync.1, none)

/-! ## LogStructuredPanic (logz) -/

/-- The outcome of running a guarded body: normal completion or a panic
carrying a value (rendered with %v, hence a string here). -/
inductive ExecResult (α : Type)
  | ok (a : α)
  | panicked (v : String)
deriving DecidableEq, Repr

/-- One structured entry written for a caught panic: the severity level
string, the formatted panic value, and the debug.Stack() trace. -/
structure PanicLogEntry where
  level : String
  msg : String
  stack : String
deriving DecidableEq, Repr

/-- LogStructuredPanic, revision src/unnamed/part_000: a deferred recover()
that, on panic, writes one JSON record with level "fatal", the formatted
panic value and the stack trace to stderr, then re-panics with the same
value. The ambient debug.Stack() is passed in. Normal completions pass
through untouched. -/
def LogStructuredPanic (body : ExecResult Unit) (stack : String) :
    List PanicLogEntry × ExecResult Unit :=
  match body with
  | .ok a => ([], .ok a)
  | .panicked v => ([⟨"fatal", v, stack⟩], .panicked v)

/-- LogStructuredPanic, revision src/unnamed/part_001: same recover/re-panic
shape, but the record is written through zap's logger.Error — severity
"error", chosen because zap's Fatal and Panic would call os.Exit or panic
inside the logger. -/
def LogStructuredPanicLogger (body : ExecResult Unit) (stack : String) :
    List PanicLogEntry × ExecResult Unit :=
  match body with
  | .ok a => ([], .ok a)
  | .panicked v => ([⟨"error", v, stack⟩], .panicked v)

/-! ## Concrete fixtures used to instantiate the theorems -/

def gvkParent : GroupVersionKind := ⟨"apps", "v1", "Parent"⟩

def gvkChild : GroupVersionKind := ⟨"apps", "v1", "Child"⟩

/-- Controller owner reference to Parent object "A". -/
def refParentA : OwnerReference := ⟨"apps/v1", "Parent", "A", true⟩

/-- Controller owner reference to Parent object "B". -/
def refParentB : OwnerReference := ⟨"apps/v1", "Parent", "B", true⟩

/-- Controller owner reference whose Kind does not match gvkParent. -/
def refOtherKind : OwnerReference := ⟨"apps/v1", "Other", "A", true⟩

/-- A controlled child object in namespace ns1 with the given owner refs. -/
def childObj (refs : List OwnerReference) : K8sObject :=
  ⟨"ns1", "child", ⟨"", "v1", "Pod"⟩, refs⟩

def ownerA : K8sObject := ⟨"nsA", "A", gvkParent, []⟩

def ownerB : K8sObject := ⟨"nsB", "B", gvkParent, []⟩

/-- An index whose ControllerByObject always returns candidates [A, B]. -/
def indexAB : ControllerIndexFn := fun _ _ _ => .ok [ownerA, ownerB]

/-- An index whose ControllerByObject always fails. -/
def indexFail : ControllerIndexFn := fun _ _ _ => .error "index unavailable"

def handlerPlain : ControlledResourceHandler := ⟨none, gvkParent⟩

def handlerIndexed : ControlledResourceHandler := ⟨some indexAB, gvkParent⟩

def handlerFailingIndex : ControlledResourceHandler := ⟨some indexFail, gvkParent⟩

def lookupEmpty : LookupHandler := ⟨gvkParent, fun _ => .ok []⟩

def lookupFailing : LookupHandler := ⟨gvkParent, fun _ => .error "lookup failed"⟩

/-- A well-behaved constructor for gvkParent. -/
def ctorParent : Constructor := ⟨gvkParent, [gvkParent], none⟩

/-- A constructor for gvkParent that also registers an informer for gvkChild. -/
def ctorParentBoth : Constructor := ⟨gvkParent, [gvkParent, gvkChild], none⟩

/-- A constructor for gvkChild whose New completes without registering any
informer. -/
def ctorChildNone : Constructor := ⟨gvkChild, [], none⟩

/-! ## Helper lemmas -/

theorem append_adds (a b : HandlerOutput) :
    (a.append b).adds = a.adds ++ b.adds := rfl

theorem foldl_append_adds (l : List HandlerOutput) :
    ∀ acc : HandlerOutput,
      (l.foldl HandlerOutput.append acc).adds =
        acc.adds ++ (l.map HandlerOutput.adds).flatten := by
  induction l with
  | nil => intro acc; simp
  | cons x xs ih =>
      intro acc
      simp only [List.foldl_cons, ih, List.map_cons, List.flatten_cons]
      simp [HandlerOutput.append, List.append_assoc]

theorem concat_adds (l : List HandlerOutput) :
    (HandlerOutput.concat l).adds = (l.map HandlerOutput.adds).flatten := by
  simpa [HandlerOutput.empty] using foldl_append_adds l HandlerOutput.empty

theorem getControllerNameAndNamespace_snd (g : ControlledResourceHandler)
    (obj : K8sObject) :
    (g.getControllerNameAndNamespace obj).2 = obj.Namespace := rfl

theorem rebuild_of_name_ne (ns nm action : String) (h : nm ≠ "") :
    ControlledResourceHandler.rebuildControllerByName ns nm action =
      ⟨[⟨.info, "Enqueuing controller object because controlled object was " ++
          action⟩],
       [⟨ns, nm⟩]⟩ := by
  unfold ControlledResourceHandler.rebuildControllerByName
  rw [if_neg h]

theorem enqueueMapped_of_resolved (g : ControlledResourceHandler)
    (obj : K8sObject) (action : String)
    (h : (g.getControllerNameAndNamespace obj).1 ≠ "") :
    g.enqueueMapped obj action =
      ControlledResourceHandler.rebuildControllerByName obj.Namespace
        (g.getControllerNameAndNamespace obj).1 action := by
  unfold ControlledResourceHandler.enqueueMapped
  rw [if_neg h]
  rfl

/-! ## Claim theorems -/

/-- C1: in ControlledResourceHandler.OnUpdate, when the controller-owner name
resolved from the old object differs from the one resolved from the new
object (both resolving to actual owners), both owners are enqueued: the old
object's resolved owner exactly once and the new object's resolved owner
exactly once. -/
theorem onUpdate_reparenting_enqueues_both_owners_once
    (g : ControlledResourceHandler) (oldObj newObj : K8sObject)
    (hold : (g.getControllerNameAndNamespace oldObj).1 ≠ "")
    (hnew : (g.getControllerNameAndNamespace newObj).1 ≠ "")
    (hne : (g.getControllerNameAndNamespace oldObj).1 ≠
      (g.getControllerNameAndNamespace newObj).1) :
    (g.OnUpdate oldObj newObj).adds.count
        ⟨oldObj.Namespace, (g.getControllerNameAndNamespace oldObj).1⟩ = 1 ∧
    (g.OnUpdate oldObj newObj).adds.count
        ⟨newObj.Namespace, (g.getControllerNameAndNamespace newObj).1⟩ = 1 := by
  have htr : (g.OnUpdate oldObj newObj).adds =
      [⟨oldObj.Namespace, (g.getControllerNameAndNamespace oldObj).1⟩,
       ⟨newObj.Namespace, (g.getControllerNameAndNamespace newObj).1⟩] := by
    unfold ControlledResourceHandler.OnUpdate
    rw [if_pos hne, append_adds, enqueueMapped_of_resolved g oldObj _ hold,
      enqueueMapped_of_resolved g newObj _ hnew,
      rebuild_of_name_ne _ _ _ hold, rebuild_of_name_ne _ _ _ hnew]
    rfl
  have hkeys : (⟨oldObj.Namespace, (g.getControllerNameAndNamespace oldObj).1⟩ :
      QueueKey) ≠ ⟨newObj.Namespace, (g.getControllerNameAndNamespace newObj).1⟩ := by
    intro hk
    exact hne (congrArg QueueKey.Name hk)
  rw [htr]
  constructor
  · simp [List.count_cons, hkeys]
  · simp [List.count_cons, Ne.symm hkeys]

/-- C1 witness: a child re-parented from Parent "A" to Parent "B" enqueues
keys (ns1, A) and (ns1, B) exactly once each. -/
theorem onUpdate_reparenting_witness :
    (handlerPlain.getControllerNameAndNamespace (childObj [refParentA])).1 ≠ "" ∧
    (handlerPlain.getControllerNameAndNamespace (childObj [refParentB])).1 ≠ "" ∧
    (handlerPlain.OnUpdate (childObj [refParentA]) (childObj [refParentB])).adds.count
        ⟨(childObj [refParentA]).Namespace,
         (handlerPlain.getControllerNameAndNamespace (childObj [refParentA])).1⟩ = 1 ∧
    (handlerPlain.OnUpdate (childObj [refParentA]) (childObj [refParentB])).adds.count
        ⟨(childObj [refParentB]).Namespace,
         (handlerPlain.getControllerNameAndNamespace (childObj [refParentB])).1⟩ = 1 := by
  refine ⟨by decide, by decide, ?_⟩
  exact onUpdate_reparenting_enqueues_both_owners_once handlerPlain
    (childObj [refParentA]) (childObj [refParentB]) (by decide) (by decide) (by decide)

/-- C2: when an object has no resolvable controller owner reference and the
ControllerIndex returns candidates [A, B], OnDelete enqueues the queue key of
A and of B, each exactly once, built from each candidate's own namespace and
name. -/
theorem onDelete_index_fanout_enqueues_each_candidate_once
    (g : ControlledResourceHandler) (idx : ControllerIndexFn)
    (obj A B : K8sObject)
    (hidx : g.ControllerIndex = some idx)
    (hname : (g.getControllerNameAndNamespace obj).1 = "")
    (hres : idx obj.gvk.groupKind obj.Namespace obj.Name = .ok [A, B])
    (hA : A.Name ≠ "") (hB : B.Name ≠ "")
    (hAB : (⟨A.Namespace, A.Name⟩ : QueueKey) ≠ ⟨B.Namespace, B.Name⟩) :
    (g.OnDelete (.live obj)).adds.count ⟨A.Namespace, A.Name⟩ = 1 ∧
    (g.OnDelete (.live obj)).adds.count ⟨B.Namespace, B.Name⟩ = 1 := by
  have htr : (g.OnDelete (.live obj)).adds =
      [⟨A.Namespace, A.Name⟩, ⟨B.Namespace, B.Name⟩] := by
    show (g.enqueueMapped obj "deleted").adds = _
    have hres2 : idx obj.gvk.groupKind (g.getControllerNameAndNamespace obj).2
        obj.Name = .ok [A, B] := hres
    simp only [ControlledResourceHandler.enqueueMapped, if_pos hname, hidx, hres2]
    rw [concat_adds]
    simp [rebuild_of_name_ne _ _ _ hA, rebuild_of_name_ne _ _ _ hB]
  rw [htr]
  constructor
  · simp [List.count_cons, hAB]
  · simp [List.count_cons, Ne.symm hAB]

/-- C2 witness: a child without owner references, with an index returning
[ownerA, ownerB], has OnDelete enqueue (nsA, A) and (nsB, B) once each. -/
theorem onDelete_index_fanout_witness :
    (handlerIndexed.getControllerNameAndNamespace (childObj [])).1 = "" ∧
    (handlerIndexed.OnDelete (.live (childObj []))).adds.count
        ⟨ownerA.Namespace, ownerA.Name⟩ = 1 ∧
    (handlerIndexed.OnDelete (.live (childObj []))).adds.count
        ⟨ownerB.Namespace, ownerB.Name⟩ = 1 := by
  refine ⟨by decide, ?_⟩
  exact onDelete_index_fanout_enqueues_each_candidate_once handlerIndexed indexAB
    (childObj []) ownerA ownerB rfl (by decide) rfl (by decide) (by decide) (by decide)

/-- C3: in all three handler variants, an OnDelete payload that is neither a
live object nor a tombstone wrapping a live object leads to one error log and
no enqueued key. -/
theorem onDelete_bad_payload_logged_and_dropped
    (l : LookupHandler) (c : ControlledResourceHandler) (ev : DeleteEvent)
    (hbad : ev.isBad = true) :
    ((GenericHandler.OnDelete ev).adds = [] ∧
      ∃ e ∈ (GenericHandler.OnDelete ev).logs, e.level = .error) ∧
    ((l.OnDelete ev).adds = [] ∧
      ∃ e ∈ (l.OnDelete ev).logs, e.level = .error) ∧
    ((c.OnDelete ev).adds = [] ∧
      ∃ e ∈ (c.OnDelete ev).logs, e.level = .error) := by
  match ev with
  | .live o => simp [DeleteEvent.isBad] at hbad
  | .tombstone (.live o) => simp [DeleteEvent.isBad] at hbad
  | .tombstone (.unrecognized t) =>
      refine ⟨⟨rfl, ?_⟩, ⟨rfl, ?_⟩, ⟨rfl, ?_⟩⟩ <;>
        exact ⟨_, List.mem_singleton.mpr rfl, rfl⟩
  | .unrecognized t =>
      refine ⟨⟨rfl, ?_⟩, ⟨rfl, ?_⟩, ⟨rfl, ?_⟩⟩ <;>
        exact ⟨_, List.mem_singleton.mpr rfl, rfl⟩

/-- C3 witness: a delete notification whose payload is an int is dropped with
an error log by all three handler variants. -/
theorem onDelete_bad_payload_witness :
    (DeleteEvent.unrecognized "int").isBad = true ∧
    (((GenericHandler.OnDelete (.unrecognized "int")).adds = [] ∧
      ∃ e ∈ (GenericHandler.OnDelete (.unrecognized "int")).logs, e.level = .error) ∧
    ((lookupEmpty.OnDelete (.unrecognized "int")).adds = [] ∧
      ∃ e ∈ (lookupEmpty.OnDelete (.unrecognized "int")).logs, e.level = .error) ∧
    ((handlerPlain.OnDelete (.unrecognized "int")).adds = [] ∧
      ∃ e ∈ (handlerPlain.OnDelete (.unrecognized "int")).logs, e.level = .error)) :=
  ⟨rfl, onDelete_bad_payload_logged_and_dropped lookupEmpty handlerPlain
    (.unrecognized "int") rfl⟩

/-- C8: when candidate resolution fails — ControllerByObject (consulted
because the object resolved no owner name) or the injected Lookup function
returns an error — the handler logs the error and enqueues nothing. -/
theorem resolution_failure_logged_and_dropped
    (g : ControlledResourceHandler) (idx : ControllerIndexFn)
    (l : LookupHandler) (obj obj2 : K8sObject) (e1 e2 action action2 : String) :
    ((g.ControllerIndex = some idx ∧
        (g.getControllerNameAndNamespace obj).1 = "" ∧
        idx obj.gvk.groupKind obj.Namespace obj.Name = .error e1) →
      (g.enqueueMapped obj action).adds = [] ∧
        ∃ le ∈ (g.enqueueMapped obj action).logs, le.level = .error) ∧
    (l.Lookup obj2 = .error e2 →
      (l.enqueueMapped obj2 action2).adds = [] ∧
        ∃ le ∈ (l.enqueueMapped obj2 action2).logs, le.level = .error) := by
  constructor
  · rintro ⟨hidx, hname, hres⟩
    have hres2 : idx obj.gvk.groupKind (g.getControllerNameAndNamespace obj).2
        obj.Name = .error e1 := hres
    have hout : g.enqueueMapped obj action =
        ⟨[⟨.error, "Failed to get controllers for object: " ++ e1⟩], []⟩ := by
      simp only [ControlledResourceHandler.enqueueMapped, if_pos hname, hidx, hres2]
    rw [hout]
    exact ⟨rfl, _, List.mem_singleton.mpr rfl, rfl⟩
  · intro hres
    have hout : l.enqueueMapped obj2 action2 =
        ⟨[⟨.error, "Failed to lookup objects: " ++ e2⟩], []⟩ := by
      simp only [LookupHandler.enqueueMapped, hres]
    rw [hout]
    exact ⟨rfl, _, List.mem_singleton.mpr rfl, rfl⟩

/-- C8 witness: a failing index and a failing lookup function both produce an
error log and no enqueued key. -/
theorem resolution_failure_witness :
    ((handlerFailingIndex.enqueueMapped (childObj []) "deleted").adds = [] ∧
      ∃ le ∈ (handlerFailingIndex.enqueueMapped (childObj []) "deleted").logs,
        le.level = .error) ∧
    ((lookupFailing.enqueueMapped (childObj []) "added").adds = [] ∧
      ∃ le ∈ (lookupFailing.enqueueMapped (childObj []) "added").logs,
        le.level = .error) := by
  have h := resolution_failure_logged_and_dropped handlerFailingIndex indexFail
    lookupFailing (childObj []) (childObj []) "index unavailable" "lookup failed"
    "deleted" "added"
  exact ⟨h.1 ⟨rfl, by decide, rfl⟩, h.2 rfl⟩

/-- C9: a non-empty owner name is resolved only from a controller owner
reference whose APIVersion and Kind match the configured ControllerGvk; a
controller reference to any other type behaves exactly like an absent
reference (the index fallback applies to the same object); and the owner key
enqueued from a resolved reference carries the child object's own namespace. -/
theorem owner_resolution_requires_matching_gvk
    (g : ControlledResourceHandler) (obj : K8sObject) (action : String) :
    ((g.getControllerNameAndNamespace obj).1 ≠ "" →
      ∃ ref, GetControllerOf obj = some ref ∧
        ref.apiVersion = g.ControllerGvk.groupVersionString ∧
        ref.kind = g.ControllerGvk.kind ∧
        (g.getControllerNameAndNamespace obj).1 = ref.name) ∧
    (∀ ref, GetControllerOf obj = some ref →
      ¬(ref.apiVersion = g.ControllerGvk.groupVersionString ∧
          ref.kind = g.ControllerGvk.kind) →
      g.enqueueMapped obj action =
        g.enqueueMapped { obj with ownerReferences := [] } action) ∧
    ((g.getControllerNameAndNamespace obj).1 ≠ "" →
      (g.enqueueMapped obj action).adds =
        [⟨obj.Namespace, (g.getControllerNameAndNamespace obj).1⟩]) := by
  refine ⟨?_, ?_, ?_⟩
  · intro hname
    match href : GetControllerOf obj with
    | none =>
        exfalso
        apply hname
        simp [ControlledResourceHandler.getControllerNameAndNamespace, href]
    | some ref =>
        by_cases hm : ref.apiVersion = g.ControllerGvk.groupVersionString ∧
            ref.kind = g.ControllerGvk.kind
        · refine ⟨ref, rfl, hm.1, hm.2, ?_⟩
          simp [ControlledResourceHandler.getControllerNameAndNamespace, href,
            if_pos hm]
        · exfalso
          apply hname
          simp [ControlledResourceHandler.getControllerNameAndNamespace, href,
            if_neg hm]
  · intro ref href hm
    have hname : (g.getControllerNameAndNamespace obj).1 = "" := by
      simp [ControlledResourceHandler.getControllerNameAndNamespace, href,
        if_neg hm]
    have hname2 : (g.getControllerNameAndNamespace
        { obj with ownerReferences := [] }).1 = "" := by
      simp [ControlledResourceHandler.getControllerNameAndNamespace,
        GetControllerOf]
    simp only [ControlledResourceHandler.enqueueMapped, if_pos hname,
      if_pos hname2]
    rfl
  · intro hname
    rw [enqueueMapped_of_resolved g obj action hname,
      rebuild_of_name_ne _ _ _ hname]

/-- C9 witness: a controller reference of a different Kind makes the handler
behave exactly as if the object had no owner reference, while a matching
reference resolves and enqueues under the child's namespace. -/
theorem owner_resolution_witness :
    (handlerIndexed.enqueueMapped (childObj [refOtherKind]) "added" =
      handlerIndexed.enqueueMapped (childObj []) "added") ∧
    ((handlerIndexed.enqueueMapped (childObj [refParentA]) "added").adds =
      [⟨(childObj [refParentA]).Namespace,
        (handlerIndexed.getControllerNameAndNamespace (childObj [refParentA])).1⟩]) := by
  have h1 := owner_resolution_requires_matching_gvk handlerIndexed
    (childObj [refOtherKind]) "added"
  have h2 := owner_resolution_requires_matching_gvk handlerIndexed
    (childObj [refParentA]) "added"
  refine ⟨?_, h2.2.2 (by decide)⟩
  have := h1.2.1 refOtherKind (by decide) (by decide)
  simpa [childObj] using this

/-- C10: Context.RegisterInformer errors exactly when an informer for the GVK
is already registered, leaving the map unchanged in that case; on success the
informer is stored under the GVK and nil is returned. -/
theorem registerInformer_spec (m : InformerMap) (gvk : GroupVersionKind)
    (inf : Nat) :
    ((RegisterInformer m gvk inf).1.isSome = true ↔
      m.containsGvk gvk = true) ∧
    (m.containsGvk gvk = true → (RegisterInformer m gvk inf).2 = m) ∧
    (m.containsGvk gvk = false →
      (RegisterInformer m gvk inf).1 = none ∧
        (RegisterInformer m gvk inf).2 = m ++ [(gvk, inf)]) := by
  unfold RegisterInformer
  by_cases h : m.containsGvk gvk = true
  · rw [if_pos h]
    exact ⟨⟨fun _ => h, fun _ => rfl⟩, fun _ => rfl,
      fun hf => absurd h (by simp [hf])⟩
  · rw [if_neg h]
    refine ⟨⟨fun hs => by simp at hs, fun hc => absurd hc h⟩,
      fun hc => absurd hc h, fun _ => ⟨rfl, rfl⟩⟩

/-- C10 witness: registering gvkParent on a map that already holds it errors
and leaves the map unchanged; registering gvkChild succeeds and appends it. -/
theorem registerInformer_witness :
    ((InformerMap.containsGvk [(gvkParent, 0)] gvkParent = true) ∧
      (RegisterInformer [(gvkParent, 0)] gvkParent 1).2 = [(gvkParent, 0)]) ∧
    ((InformerMap.containsGvk [(gvkParent, 0)] gvkChild = false) ∧
      (RegisterInformer [(gvkParent, 0)] gvkChild 1).1 = none ∧
      (RegisterInformer [(gvkParent, 0)] gvkChild 1).2 =
        [(gvkParent, 0)] ++ [(gvkChild, 1)]) := by
  refine ⟨⟨by decide, ?_⟩, ⟨by decide, ?_⟩⟩
  · exact (registerInformer_spec [(gvkParent, 0)] gvkParent 1).2.1 (by decide)
  · exact (registerInformer_spec [(gvkParent, 0)] gvkChild 1).2.2 (by decide)

/-- C7 counterexample: the revision of LogStructuredPanic in
src/unnamed/part_001 records the caught panic through zap logger.Error, so
the logged severity is "error", not "fatal", refuting the claim that every
LogStructuredPanic guard logs the panic at fatal severity. -/
theorem logStructuredPanic_severity_counterexample :
    (LogStructuredPanicLogger (.panicked "boom") "stack-trace").1 =
      [⟨"error", "boom", "stack-trace"⟩] ∧
    ("error" : String) ≠ "fatal" := by
  exact ⟨rfl, by decide⟩

/-- C7 amended: every panic inside a guarded body is caught, logged exactly
once with the formatted panic value and the full stack trace — at fatal
severity by the stderr-JSON revision (part_000), at error severity by the
zap-logger revision (part_001) — and then re-raised with the same panic
value. -/
theorem logStructuredPanic_logs_and_reraises (v stack : String) :
    LogStructuredPanic (.panicked v) stack =
      ([⟨"fatal", v, stack⟩], .panicked v) ∧
    LogStructuredPanicLogger (.panicked v) stack =
      ([⟨"error", v, stack⟩], .panicked v) :=
  ⟨rfl, rfl⟩

/-- Registrations only extend the shared informer map. -/
theorem registerAll_subset (gs : List GroupVersionKind) :
    ∀ infs : List GroupVersionKind, infs ⊆ registerAll infs gs := by
  induction gs with
  | nil => intro infs; exact fun _ h => h
  | cons g gs ih =>
      intro infs
      have hstep : infs ⊆ (if g ∈ infs then infs else infs ++ [g]) := by
        split
        · exact fun _ h => h
        · exact fun _ h => List.mem_append_left _ h
      exact fun x hx => ih (if g ∈ infs then infs else infs ++ [g]) (hstep hx)

/-- If the construction loop succeeds, the declared GVKs are pairwise
distinct and none of them was already in the controllers map. -/
theorem newGenericLoop_ok_nodup :
    ∀ (cs : List Constructor) (ctrls infs : List GroupVersionKind) r,
      newGenericLoop cs ctrls infs = .ok r →
      (cs.map Constructor.Gvk).Nodup ∧ ∀ c ∈ cs, c.Gvk ∉ ctrls := by
  intro cs
  induction cs with
  | nil => intro ctrls infs r _; exact ⟨List.nodup_nil, by simp⟩
  | cons c rest ih =>
      intro ctrls infs r h
      unfold newGenericLoop at h
      by_cases hc : c.Gvk ∈ ctrls
      · simp [hc] at h
      rw [if_neg hc] at h
      rcases hne : c.newErr with _ | e
      · rw [hne] at h
        by_cases hm : c.Gvk ∈ registerAll infs c.registers
        · simp only [if_pos hm] at h
          obtain ⟨hnodup, hnotin⟩ := ih (ctrls ++ [c.Gvk]) (registerAll infs c.registers) r h
          refine ⟨?_, ?_⟩
          · rw [List.map_cons, List.nodup_cons]
            refine ⟨?_, hnodup⟩
            intro hmem
            obtain ⟨c2, hc2, hceq⟩ := List.mem_map.mp hmem
            exact hnotin c2 hc2 (by rw [hceq]; exact List.mem_append_right _ (List.mem_singleton.mpr rfl))
          · intro c2 hc2
            rcases List.mem_cons.mp hc2 with hEq | hmem
            · rw [hEq]; exact hc
            · exact fun hin => hnotin c2 hmem (List.mem_append_left _ hin)
        · simp [if_neg hm] at h
      · rw [hne] at h
        simp at h

/-- If the construction loop succeeds, the shared informer map only grew and
ends up holding an informer GVK for every processed constructor. -/
theorem newGenericLoop_ok_informers :
    ∀ (cs : List Constructor) (ctrls infs : List GroupVersionKind) r,
      newGenericLoop cs ctrls infs = .ok r →
      infs ⊆ r.2 ∧ ∀ c ∈ cs, c.Gvk ∈ r.2 := by
  intro cs
  induction cs with
  | nil =>
      intro ctrls infs r h
      unfold newGenericLoop at h
      cases h
      exact ⟨fun _ hx => hx, by simp⟩
  | cons c rest ih =>
      intro ctrls infs r h
      unfold newGenericLoop at h
      by_cases hc : c.Gvk ∈ ctrls
      · simp [hc] at h
      rw [if_neg hc] at h
      rcases hne : c.newErr with _ | e
      · rw [hne] at h
        by_cases hm : c.Gvk ∈ registerAll infs c.registers
        · simp only [if_pos hm] at h
          obtain ⟨hsub, hmem⟩ := ih (ctrls ++ [c.Gvk]) (registerAll infs c.registers) r h
          refine ⟨fun x hx => hsub (registerAll_subset c.registers infs hx), ?_⟩
          intro c2 hc2
          rcases List.mem_cons.mp hc2 with hEq | hmem2
          · rw [hEq]; exact hsub hm
          · exact hmem c2 hmem2
        · simp [if_neg hm] at h
      · rw [hne] at h
        simp at h

/-- C5 counterexample: constructor ctorParentBoth (declares gvkParent,
registers informers for gvkParent and gvkChild) followed by ctorChildNone
(declares gvkChild, completes without registering any informer). The second
constructor completes without having registered an informer for its declared
GVK, yet NewGeneric succeeds, because the presence check only consults the
shared informer map. -/
theorem newGeneric_missing_informer_counterexample :
    ctorChildNone.newErr = none ∧ ctorChildNone.registers = [] ∧
    NewGeneric [ctorParentBoth, ctorChildNone] =
      .ok ([gvkParent, gvkChild], [gvkParent, gvkChild]) :=
  ⟨rfl, rfl, rfl⟩

/-- C5 amended: NewGeneric returns an error whenever two constructors declare
the same GVK; and it succeeds only if, for every constructor, an informer for
its declared GVK is present in the shared informer map after construction —
registered by that constructor or by an earlier one. -/
theorem newGeneric_construction_guard (cs : List Constructor) :
    (¬ (cs.map Constructor.Gvk).Nodup → ∃ e, NewGeneric cs = .error e) ∧
    (∀ r, NewGeneric cs = .ok r → ∀ c ∈ cs, c.Gvk ∈ r.2) := by
  constructor
  · intro hnd
    rcases hE : NewGeneric cs with e | r
    · exact ⟨e, rfl⟩
    · exact absurd (newGenericLoop_ok_nodup cs [] [] r hE).1 hnd
  · intro r h c hc
    exact (newGenericLoop_ok_informers cs [] [] r h).2 c hc

/-- C5 witness: two constructors declaring gvkParent make NewGeneric fail. -/
theorem newGeneric_duplicate_gvk_witness :
    (¬ ([ctorParent, ctorParent].map Constructor.Gvk).Nodup) ∧
    ∃ e, NewGeneric [ctorParent, ctorParent] = .error e :=
  ⟨by decide, (newGeneric_construction_guard [ctorParent, ctorParent]).1 (by decide)⟩

/-- The cache-sync wait loop succeeds exactly when every informer syncs. -/
theorem cacheSyncLoop_eq_true_iff (l : List (GroupVersionKind × Bool)) :
    (cacheSyncLoop l).2 = true ↔ ∀ p ∈ l, p.2 = true := by
  induction l with
  | nil => simp [cacheSyncLoop]
  | cons p rest ih =>
      obtain ⟨g, b⟩ := p
      cases b
      · simp [cacheSyncLoop]
      · simp [cacheSyncLoop, ih]

theorem cacheSyncLoop_false_of_exists (l : List (GroupVersionKind × Bool))
    (h : ∃ p ∈ l, p.2 = false) : (cacheSyncLoop l).2 = false := by
  rcases hx : (cacheSyncLoop l).2 with _ | _
  · rfl
  · obtain ⟨p, hp, hp2⟩ := h
    have := (cacheSyncLoop_eq_true_iff l).mp hx p hp
    rw [hp2] at this
    cases this

/-- Every event the cache-sync loop emits is a syncOk. -/
theorem cacheSyncLoop_mem (l : List (GroupVersionKind × Bool)) :
    ∀ e ∈ (cacheSyncLoop l).1, ∃ g, e = RunEvent.syncOk g := by
  induction l with
  | nil => intro e he; simp [cacheSyncLoop] at he
  | cons p rest ih =>
      obtain ⟨g, b⟩ := p
      intro e he
      cases b
      · simp [cacheSyncLoop] at he
      · simp only [cacheSyncLoop, if_pos] at he
        rcases List.mem_cons.mp he with hEq | hmem
        · exact ⟨g, hEq⟩
        · exact ih e hmem

/-- The readiness wait loop succeeds exactly when every gate closes. -/
theorem readyLoop_eq_true_iff (l : List (GroupVersionKind × Bool)) :
    (readyLoop l).2 = true ↔ ∀ p ∈ l, p.2 = true := by
  induction l with
  | nil => simp [readyLoop]
  | cons p rest ih =>
      obtain ⟨g, b⟩ := p
      cases b
      · simp [readyLoop]
      · simp [readyLoop, ih]

/-- Every event the readiness loop emits is a readyOk. -/
theorem readyLoop_mem (l : List (GroupVersionKind × Bool)) :
    ∀ e ∈ (readyLoop l).1, ∃ g, e = RunEvent.readyOk g := by
  induction l with
  | nil => intro e he; simp [readyLoop] at he
  | cons p rest ih =>
      obtain ⟨g, b⟩ := p
      intro e he
      cases b
      · simp [readyLoop] at he
      · simp only [readyLoop, if_pos] at he
        rcases List.mem_cons.mp he with hEq | hmem
        · exact ⟨g, hEq⟩
        · exact ih e hmem

/-- C4 counterexample: in the src/unnamed/part_005 revision of Generic.Run, a
context cancelled before the single informer syncs makes Run return nil, not
the context's error — refuting "Run returns the cancellation condition (the
context's error)" for that revision. -/
theorem run_part005_returns_nil_counterexample :
    (GenericRunPart005 [(gvkParent, false)] [] 1 "context canceled").2 = none ∧
    (none : Option String) ≠ some "context canceled" :=
  ⟨rfl, by decide⟩

/-- C4 amended: if the context is done before every registered informer
reports synced, Generic.Run returns with no controller run loop and no worker
started; the part_004 revision returns the context's error, while the
part_005 revision returns nil. -/
theorem run_cancelled_during_sync
    (informers controllers : List (GroupVersionKind × Bool)) (workers : Nat)
    (ctxErr : String) (h : ∃ p ∈ informers, p.2 = false) :
    (GenericRun informers controllers workers ctxErr).2 = some ctxErr ∧
    (∀ g, RunEvent.ctrlStart g ∉ (GenericRun informers controllers workers ctxErr).1) ∧
    (∀ i, RunEvent.workerStart i ∉ (GenericRun informers controllers workers ctxErr).1) ∧
    (GenericRunPart005 informers controllers workers ctxErr).2 = none ∧
    (∀ g, RunEvent.ctrlStart g ∉ (GenericRunPart005 informers controllers workers ctxErr).1) ∧
    (∀ i, RunEvent.workerStart i ∉ (GenericRunPart005 informers controllers workers ctxErr).1) := by
  have hsync : (cacheSyncLoop informers).2 = false :=
    cacheSyncLoop_false_of_exists informers h
  have htr : (GenericRun informers controllers workers ctxErr).1 =
      (informers.map fun p => RunEvent.infStart p.1) ++ (cacheSyncLoop informers).1 := by
    simp [GenericRun, hsync]
  have htr5 : (GenericRunPart005 informers controllers workers ctxErr).1 =
      (informers.map fun p => RunEvent.infStart p.1) ++ (cacheSyncLoop informers).1 := by
    simp [GenericRunPart005, hsync]
  have hctrl : ∀ g, RunEvent.ctrlStart g ∉
      (informers.map fun p => RunEvent.infStart p.1) ++ (cacheSyncLoop informers).1 := by
    intro g hmem
    rcases List.mem_append.mp hmem with hm | hm
    · obtain ⟨p, _, hEq⟩ := List.mem_map.mp hm
      cases hEq
    · obtain ⟨g2, hEq⟩ := cacheSyncLoop_mem informers _ hm
      cases hEq
  have hwork : ∀ i, RunEvent.workerStart i ∉
      (informers.map fun p => RunEvent.infStart p.1) ++ (cacheSyncLoop informers).1 := by
    intro i hmem
    rcases List.mem_append.mp hmem with hm | hm
    · obtain ⟨p, _, hEq⟩ := List.mem_map.mp hm
      cases hEq
    · obtain ⟨g2, hEq⟩ := cacheSyncLoop_mem informers _ hm
      cases hEq
  refine ⟨by simp [GenericRun, hsync], ?_, ?_, by simp [GenericRunPart005, hsync], ?_, ?_⟩
  · intro g; rw [htr]; exact hctrl g
  · intro i; rw [htr]; exact hwork i
  · intro g; rw [htr5]; exact hctrl g
  · intro i; rw [htr5]; exact hwork i

/-- C4 witness: with one unsynced informer, the part_004 revision returns the
context error and neither revision starts a controller or worker. -/
theorem run_cancelled_during_sync_witness :
    (∃ p ∈ [(gvkParent, false)], p.2 = false) ∧
    (GenericRun [(gvkParent, false)] [(gvkChild, true)] 2 "context canceled").2 =
      some "context canceled" ∧
    (RunEvent.ctrlStart gvkChild ∉
      (GenericRun [(gvkParent, false)] [(gvkChild, true)] 2 "context canceled").1) ∧
    (GenericRunPart005 [(gvkParent, false)] [(gvkChild, true)] 2 "context canceled").2 =
      none := by
  have h := run_cancelled_during_sync [(gvkParent, false)] [(gvkChild, true)] 2
    "context canceled" (by decide)
  exact ⟨by decide, h.1, h.2.1 gvkChild, h.2.2.2.1⟩

/-- Positions of elements found only in the right part of an append are
strictly after positions of elements found only in the left part. -/
theorem getElem_split_ordering {α : Type} {A B : List α} {x y : α}
    (hxA : x ∉ A) (hyB : y ∉ B) (i j : Nat)
    (hx : (A ++ B)[i]? = some x) (hy : (A ++ B)[j]? = some y) : j < i := by
  have hiA : ¬ i < A.length := by
    intro hlt
    apply hxA
    rw [List.getElem?_append_left hlt] at hx
    exact List.getElem?_mem hx
  have hjB : j < A.length := by
    by_contra hge
    apply hyB
    rw [List.getElem?_append_right (Nat.le_of_not_lt hge)] at hy
    exact List.getElem?_mem hy
  omega

/-- No controller-start event occurs among informer starts and sync waits. -/
theorem ctrlStart_not_in_stage1
    (informers : List (GroupVersionKind × Bool)) (g : GroupVersionKind) :
    RunEvent.ctrlStart g ∉
      (informers.map fun p => RunEvent.infStart p.1) ++ (cacheSyncLoop informers).1 := by
  intro hmem
  rcases List.mem_append.mp hmem with hm | hm
  · obtain ⟨p, _, hEq⟩ := List.mem_map.mp hm
    cases hEq
  · obtain ⟨g2, hEq⟩ := cacheSyncLoop_mem informers _ hm
    cases hEq

/-- No sync event occurs among controller starts, readiness waits and worker
starts. -/
theorem syncOk_not_in_later_stages
    (controllers : List (GroupVersionKind × Bool)) (workers : Nat)
    (g : GroupVersionKind) :
    RunEvent.syncOk g ∉
      (controllers.map fun p => RunEvent.ctrlStart p.1) ++
      ((readyLoop controllers).1 ++ (List.range workers).map RunEvent.workerStart) := by
  intro hmem
  rcases List.mem_append.mp hmem with hm | hm
  · obtain ⟨p, _, hEq⟩ := List.mem_map.mp hm
    cases hEq
  · rcases List.mem_append.mp hm with hm2 | hm2
    · obtain ⟨g2, hEq⟩ := readyLoop_mem controllers _ hm2
      cases hEq
    · obtain ⟨k, _, hEq⟩ := List.mem_map.mp hm2
      cases hEq

/-- No worker-start event occurs before the worker stage. -/
theorem workerStart_not_before_workers
    (informers controllers : List (GroupVersionKind × Bool)) (k : Nat) :
    RunEvent.workerStart k ∉
      ((informers.map fun p => RunEvent.infStart p.1) ++ (cacheSyncLoop informers).1) ++
      ((controllers.map fun p => RunEvent.ctrlStart p.1) ++ (readyLoop controllers).1) := by
  intro hmem
  rcases List.mem_append.mp hmem with hm | hm
  · rcases List.mem_append.mp hm with hm2 | hm2
    · obtain ⟨p, _, hEq⟩ := List.mem_map.mp hm2
      cases hEq
    · obtain ⟨g2, hEq⟩ := cacheSyncLoop_mem informers _ hm2
      cases hEq
  · rcases List.mem_append.mp hm with hm2 | hm2
    · obtain ⟨p, _, hEq⟩ := List.mem_map.mp hm2
      cases hEq
    · obtain ⟨g2, hEq⟩ := readyLoop_mem controllers _ hm2
      cases hEq

/-- No readiness event occurs among the worker starts. -/
theorem readyOk_not_in_workers (workers : Nat) (g : GroupVersionKind) :
    RunEvent.readyOk g ∉ (List.range workers).map RunEvent.workerStart := by
  intro hmem
  obtain ⟨k, _, hEq⟩ := List.mem_map.mp hmem
  cases hEq

/-- C6: Generic.Run's three stages are strictly ordered: a controller run
loop is started only if every informer reported synced, and every
controller-start event sits strictly after every sync event in the trace; a
worker is started only if additionally every readiness gate closed, and every
worker-start event sits strictly after every readiness event; consequently a
cancellation during an earlier stage's wait (some informer unsynced, or some
gate unclosed) means no later stage event appears at all. -/
theorem run_three_stages_strictly_ordered
    (informers controllers : List (GroupVersionKind × Bool)) (workers : Nat)
    (ctxErr : String) :
    (∀ g, RunEvent.ctrlStart g ∈ (GenericRun informers controllers workers ctxErr).1 →
      ∀ p ∈ informers, p.2 = true) ∧
    (∀ k, RunEvent.workerStart k ∈ (GenericRun informers controllers workers ctxErr).1 →
      (∀ p ∈ informers, p.2 = true) ∧ ∀ p ∈ controllers, p.2 = true) ∧
    (∀ (i j : Nat) (g g2 : GroupVersionKind),
      (GenericRun informers controllers workers ctxErr).1[i]? =
        some (RunEvent.ctrlStart g) →
      (GenericRun informers controllers workers ctxErr).1[j]? =
        some (RunEvent.syncOk g2) → j < i) ∧
    (∀ (i j k : Nat) (g2 : GroupVersionKind),
      (GenericRun informers controllers workers ctxErr).1[i]? =
        some (RunEvent.workerStart k) →
      (GenericRun informers controllers workers ctxErr).1[j]? =
        some (RunEvent.readyOk g2) → j < i) := by
  by_cases hs : (cacheSyncLoop informers).2 = true
  · by_cases hr : (readyLoop controllers).2 = true
    · have htr : (GenericRun informers controllers workers ctxErr).1 =
          ((informers.map fun p => RunEvent.infStart p.1) ++ (cacheSyncLoop informers).1) ++
          ((controllers.map fun p => RunEvent.ctrlStart p.1) ++
            ((readyLoop controllers).1 ++ (List.range workers).map RunEvent.workerStart)) := by
        simp [GenericRun, hs, hr, List.append_assoc]
      have htr2 : (GenericRun informers controllers workers ctxErr).1 =
          (((informers.map fun p => RunEvent.infStart p.1) ++ (cacheSyncLoop informers).1) ++
           ((controllers.map fun p => RunEvent.ctrlStart p.1) ++ (readyLoop controllers).1)) ++
          (List.range workers).map RunEvent.workerStart := by
        simp [GenericRun, hs, hr, List.append_assoc]
      refine ⟨?_, ?_, ?_, ?_⟩
      · intro g _ p hp
        exact (cacheSyncLoop_eq_true_iff informers).mp hs p hp
      · intro k _
        exact ⟨(cacheSyncLoop_eq_true_iff informers).mp hs,
          (readyLoop_eq_true_iff controllers).mp hr⟩
      · intro i j g g2 hx hy
        rw [htr] at hx hy
        exact getElem_split_ordering (ctrlStart_not_in_stage1 informers g)
          (syncOk_not_in_later_stages controllers workers g2) i j hx hy
      · intro i j k g2 hx hy
        rw [htr2] at hx hy
        exact getElem_split_ordering
          (workerStart_not_before_workers informers controllers k)
          (readyOk_not_in_workers workers g2) i j hx hy
    · have hr2 : (readyLoop controllers).2 = false := by
        revert hr; cases (readyLoop controllers).2 <;> simp
      have htr : (GenericRun informers controllers workers ctxErr).1 =
          ((informers.map fun p => RunEvent.infStart p.1) ++ (cacheSyncLoop informers).1) ++
          ((controllers.map fun p => RunEvent.ctrlStart p.1) ++
            ((readyLoop controllers).1 ++ ([] : List RunEvent))) := by
        simp [GenericRun, hs, hr2, List.append_assoc]
      have hnoworker : ∀ k, RunEvent.workerStart k ∉
          (GenericRun informers controllers workers ctxErr).1 := by
        intro k hmem
        rw [htr] at hmem
        have := workerStart_not_before_workers informers controllers k
        simp only [List.append_nil] at hmem
        rcases List.mem_append.mp hmem with hm | hm
        · exact this (List.mem_append_left _ hm)
        · exact this (List.mem_append_right _ hm)
      refine ⟨?_, ?_, ?_, ?_⟩
      · intro g _ p hp
        exact (cacheSyncLoop_eq_true_iff informers).mp hs p hp
      · intro k hmem
        exact absurd hmem (hnoworker k)
      · intro i j g g2 hx hy
        rw [htr] at hx hy
        exact getElem_split_ordering (ctrlStart_not_in_stage1 informers g)
          (syncOk_not_in_later_stages controllers 0 g2) i j hx
          (by simpa using hy)
      · intro i j k g2 hx _
        exact absurd (List.getElem?_mem hx) (hnoworker k)
  · have hs2 : (cacheSyncLoop informers).2 = false := by
      revert hs; cases (cacheSyncLoop informers).2 <;> simp
    have htr : (GenericRun informers controllers workers ctxErr).1 =
        (informers.map fun p => RunEvent.infStart p.1) ++ (cacheSyncLoop informers).1 := by
      simp [GenericRun, hs2]
    have hnoctrl : ∀ g, RunEvent.ctrlStart g ∉
        (GenericRun informers controllers workers ctxErr).1 := by
      intro g hmem
      rw [htr] at hmem
      exact ctrlStart_not_in_stage1 informers g hmem
    have hnoworker : ∀ k, RunEvent.workerStart k ∉
        (GenericRun informers controllers workers ctxErr).1 := by
      intro k hmem
      rw [htr] at hmem
      rcases List.mem_append.mp hmem with hm | hm
      · obtain ⟨p, _, hEq⟩ := List.mem_map.mp hm
        cases hEq
      · obtain ⟨g2, hEq⟩ := cacheSyncLoop_mem informers _ hm
        cases hEq
    refine ⟨?_, ?_, ?_, ?_⟩
    · intro g hmem
      exact absurd hmem (hnoctrl g)
    · intro k hmem
      exact absurd hmem (hnoworker k)
    · intro i j g g2 hx _
      exact absurd (List.getElem?_mem hx) (hnoctrl g)
    · intro i j k g2 hx _
      exact absurd (List.getElem?_mem hx) (hnoworker k)

/-- C6 witness: with one synced informer and one ready controller, the worker
start sits at a strictly later trace position than the readiness event. -/
theorem run_three_stages_witness :
    (GenericRun [(gvkParent, true)] [(gvkChild, true)] 1 "context canceled").1[4]? =
      some (RunEvent.workerStart 0) ∧
    (GenericRun [(gvkParent, true)] [(gvkChild, true)] 1 "context canceled").1[3]? =
      some (RunEvent.readyOk gvkChild) ∧
    (3 : Nat) < 4 := by
  refine ⟨by decide, by decide, ?_⟩
  exact (run_three_stages_strictly_ordered [(gvkParent, true)] [(gvkChild, true)] 1
    "context canceled").2.2.2 4 3 0 gvkChild (by decide) (by decide)

end Ctrl
